import Mathlib

/-!
Shallow embedding of the industrial-site backend (`src/main.py`): a product
catalog with a static fallback and lazy seeding, and a contact-inquiry intake.
Documents of the external store are string-keyed maps, modelled as association
lists of `String × Value` with Python-dict semantics (first occurrence wins).
-/

set_option autoImplicit false

namespace IndustrialApi

/-- A JSON/BSON-like value stored in a document field.  `oid` models the
internal unique identifier (Mongo ObjectId) as a number; `time` models a
datetime as an abstract tick count. -/
inductive Value where
  | str (s : String)
  | bool (b : Bool)
  | listStr (l : List String)
  | oid (n : Nat)
  | time (t : Nat)
  | null
deriving DecidableEq, Repr

/-- A schema-less document: an ordered string-keyed map (Python dict). -/
abbrev Doc := List (String × Value)

namespace Doc

/-- Dict lookup `d[k]` / `d.get(k)`: value of the first entry with key `k`. -/
def get? (d : Doc) (k : String) : Option Value :=
  (d.find? (fun kv => kv.1 == k)).map (fun kv => kv.2)

/-- Dict assignment `d[k] = v`: replace the value of an existing key in place,
otherwise append the new entry at the end (Python insertion-order semantics). -/
def set : Doc → String → Value → Doc
  | [], k, v => [(k, v)]
  | (k', v') :: rest, k, v =>
      if k' == k then (k, v) :: rest else (k', v') :: set rest k v

/-- Dict key removal `d.pop(k)` (the removal part): drop entries keyed `k`. -/
def erase (d : Doc) (k : String) : Doc :=
  d.filter (fun kv => !(kv.1 == k))

end Doc

/-- Python `str(v)` as used on the internal identifier; the rendering of an
`oid` is a modelling choice (decimal digits). -/
def valueToStr : Value → String
  | .str s => s
  | .bool b => if b then "True" else "False"
  | .listStr l => String.intercalate ", " l
  | .oid n => toString n
  | .time t => toString t
  | .null => "None"

/-- `serialize` from `main.py`: on a non-empty document, rename the internal
`_id` field to a public `id` field holding its string rendering. -/
def serialize (doc : Doc) : Doc :=
  if doc.isEmpty then doc
  else
    match doc.get? "_id" with
    | some v => (doc.erase "_id").set "id" (.str (valueToStr v))
    | none => doc

/-- The `Product` pydantic model. -/
structure Product where
  title : String
  slug : String
  category : String
  brand : Option String := none
  description : Option String := none
  specs : Option (List String) := none
  images : Option (List String) := none
  featured : Bool := false
deriving DecidableEq, Repr

/-- `Product.model_fields`, in declaration order. -/
def productFieldNames : List String :=
  ["title", "slug", "category", "brand", "description", "specs", "images", "featured"]

/-- The dict comprehension `{k: v for k, v in item.items() if k in Product.model_fields}`. -/
def keepFields (d : Doc) : Doc :=
  d.filter (fun kv => productFieldNames.contains kv.1)

/-- Validation of a required `str` field: present with a string value. -/
def getStrV : Option Value → Option String
  | some (.str s) => some s
  | _ => none

/-- Validation of an `Optional[str]` field: absent or null defaults to `none`. -/
def optStrV : Option Value → Option (Option String)
  | none => some none
  | some .null => some none
  | some (.str s) => some (some s)
  | _ => none

/-- Validation of an `Optional[List[str]]` field: absent or null defaults to `none`. -/
def optListV : Option Value → Option (Option (List String))
  | none => some none
  | some .null => some none
  | some (.listStr l) => some (some l)
  | _ => none

/-- Validation of the `featured : bool = False` field: absent defaults to `false`. -/
def boolV : Option Value → Option Bool
  | none => some false
  | some (.bool b) => some b
  | _ => none

/-- `Product(**{k: v for k, v in item.items() if k in Product.model_fields})`:
keep only the model's fields, then validate each; `none` models a pydantic
`ValidationError`.  (Lenient scalar coercions of pydantic are not modelled;
all documents in play carry values of the declared types.) -/
def projectProduct (doc : Doc) : Option Product :=
  let d := keepFields doc
  match getStrV (d.get? "title"), getStrV (d.get? "slug"), getStrV (d.get? "category"),
        optStrV (d.get? "brand"), optStrV (d.get? "description"),
        optListV (d.get? "specs"), optListV (d.get? "images"), boolV (d.get? "featured") with
  | some t, some sl, some c, some b, some de, some sp, some im, some f =>
      some ⟨t, sl, c, b, de, sp, im, f⟩
  | _, _, _, _, _, _, _, _ => none

/-- The response rendering of a `Product` under `response_model=List[Product]`:
exactly the model's fields, in declaration order. -/
def productToDoc (p : Product) : Doc :=
  [("title", .str p.title), ("slug", .str p.slug), ("category", .str p.category),
   ("brand", match p.brand with | some s => .str s | none => .null),
   ("description", match p.description with | some s => .str s | none => .null),
   ("specs", match p.specs with | some l => .listStr l | none => .null),
   ("images", match p.images with | some l => .listStr l | none => .null),
   ("featured", .bool p.featured)]

/-- First static fallback product of `_sample_products`. -/
def sampleDoc1 : Doc :=
  [("title", .str "Industrial Circuit Breaker 3P 100A"),
   ("slug", .str "industrial-circuit-breaker-3p-100a"),
   ("category", .str "Power Distribution"),
   ("brand", .str "ProGuard"),
   ("description", .str "Rugged molded-case circuit breaker for industrial panels with high interrupt capacity."),
   ("specs", .listStr ["Rated current: 100A", "Poles: 3", "Voltage: 415VAC",
                       "Breaking capacity: 36kA", "Compliance: IEC 60947-2"]),
   ("images", .listStr ["https://images.unsplash.com/photo-1581094794329-c8112a89af12?q=80&w=1200&auto=format&fit=crop"]),
   ("featured", .bool true)]

/-- Second static fallback product of `_sample_products`. -/
def sampleDoc2 : Doc :=
  [("title", .str "Metallic Cable Tray Ladder Type"),
   ("slug", .str "metallic-cable-tray-ladder"),
   ("category", .str "Cable Management"),
   ("brand", .str "SteelFlex"),
   ("description", .str "Heavy-duty galvanized steel ladder cable tray for factories and plants."),
   ("specs", .listStr ["Material: GI steel", "Width: 300mm", "Height: 100mm",
                       "Finish: Hot-dip galvanized", "Accessories: Bends, tees, reducers"]),
   ("images", .listStr ["https://images.unsplash.com/photo-1581090464777-f3220bbe1b8b?q=80&w=1200&auto=format&fit=crop"]),
   ("featured", .bool true)]

/-- Third static fallback product of `_sample_products`. -/
def sampleDoc3 : Doc :=
  [("title", .str "Programmable Logic Controller (PLC)"),
   ("slug", .str "programmable-logic-controller-plc"),
   ("category", .str "Automation"),
   ("brand", .str "AutoCore"),
   ("description", .str "Compact PLC for machine automation with Ethernet and Modbus."),
   ("specs", .listStr ["I/O: 24 DI, 16 DO, 4 AI", "Protocols: Modbus TCP/RTU",
                       "Programming: Ladder/Structured Text", "Comms: 2x RS485, 1x Ethernet"]),
   ("images", .listStr ["https://images.unsplash.com/photo-1581092578034-95c2a5b9c9d7?q=80&w=1200&auto=format&fit=crop"]),
   ("featured", .bool false)]

/-- `_sample_products()`: the static fallback list. -/
def sample_products : List Doc := [sampleDoc1, sampleDoc2, sampleDoc3]

/-- The first sample as a `Product` (its coercion through the model). -/
def product1 : Product :=
  { title := "Industrial Circuit Breaker 3P 100A"
    slug := "industrial-circuit-breaker-3p-100a"
    category := "Power Distribution"
    brand := some "ProGuard"
    description := some "Rugged molded-case circuit breaker for industrial panels with high interrupt capacity."
    specs := some ["Rated current: 100A", "Poles: 3", "Voltage: 415VAC",
                   "Breaking capacity: 36kA", "Compliance: IEC 60947-2"]
    images := some ["https://images.unsplash.com/photo-1581094794329-c8112a89af12?q=80&w=1200&auto=format&fit=crop"]
    featured := true }

/-- The second sample as a `Product`. -/
def product2 : Product :=
  { title := "Metallic Cable Tray Ladder Type"
    slug := "metallic-cable-tray-ladder"
    category := "Cable Management"
    brand := some "SteelFlex"
    description := some "Heavy-duty galvanized steel ladder cable tray for factories and plants."
    specs := some ["Material: GI steel", "Width: 300mm", "Height: 100mm",
                   "Finish: Hot-dip galvanized", "Accessories: Bends, tees, reducers"]
    images := some ["https://images.unsplash.com/photo-1581090464777-f3220bbe1b8b?q=80&w=1200&auto=format&fit=crop"]
    featured := true }

/-- The third sample as a `Product`. -/
def product3 : Product :=
  { title := "Programmable Logic Controller (PLC)"
    slug := "programmable-logic-controller-plc"
    category := "Automation"
    brand := some "AutoCore"
    description := some "Compact PLC for machine automation with Ethernet and Modbus."
    specs := some ["I/O: 24 DI, 16 DO, 4 AI", "Protocols: Modbus TCP/RTU",
                   "Programming: Ladder/Structured Text", "Comms: 2x RS485, 1x Ethernet"]
    images := some ["https://images.unsplash.com/photo-1581092578034-95c2a5b9c9d7?q=80&w=1200&auto=format&fit=crop"]
    featured := false }

example : sample_products.mapM projectProduct = some [product1, product2, product3] := by
  decide

/-- Modelled from the spec: the external document store (`database.py` is not
part of the sources; the spec treats it as a generic key-value document store
with exact-match filtering).  Two logical collections, `product` and `inquiry`;
`nextId` generates the internal unique identifier of inserted documents. -/
structure Store where
  product : List Doc
  inquiry : List Doc
  nextId : Nat
deriving DecidableEq, Repr

/-- A store with both collections empty. -/
def emptyStore : Store := { product := [], inquiry := [], nextId := 0 }

/-- Mongo-style exact-match filtering: a document matches when every filter
entry is present in it with an equal value. -/
def matchesFilter (d : Doc) (fil : Doc) : Bool :=
  fil.all (fun kv => d.get? kv.1 == some kv.2)

/-- Select a collection of the store by name. -/
def Store.coll (st : Store) (name : String) : List Doc :=
  if name == "product" then st.product
  else if name == "inquiry" then st.inquiry
  else []

/-- Modelled from the spec: `get_documents(collection, filter)` — query a
collection with an exact-match filter, in insertion order. -/
def get_documents (st : Store) (name : String) (fil : Doc) : List Doc :=
  (st.coll name).filter (fun d => matchesFilter d fil)

/-- Modelled from the spec: `create_document(collection, payload)` — insert a
document, attaching a fresh internal unique identifier. -/
def create_document (st : Store) (name : String) (payload : Doc) : Store :=
  if name == "product" then
    { st with product := st.product ++ [("_id", .oid st.nextId) :: payload],
              nextId := st.nextId + 1 }
  else if name == "inquiry" then
    { st with inquiry := st.inquiry ++ [("_id", .oid st.nextId) :: payload],
              nextId := st.nextId + 1 }
  else st

/-- The exact-match filter built by `list_products`: a category key only when
the supplied category is truthy (`if category:`), a featured key whenever the
flag is supplied (`if featured is not None:`). -/
def buildFilter (category : Option String) (featured : Option Bool) : Doc :=
  (match category with
   | some c => if c = "" then [] else [("category", Value.str c)]
   | none => []) ++
  (match featured with
   | some b => [("featured", Value.bool b)]
   | none => [])

/-- Modelled from the spec: one seeding upsert
`db["product"].update_one({"slug": p["slug"]}, {"$setOnInsert": p}, upsert=True)` —
insert `p` (with a fresh identifier) only when no document with its slug exists. -/
def upsertBySlug (coll : List Doc) (nextId : Nat) (p : Doc) : List Doc × Nat :=
  if coll.any (fun d => matchesFilter d [("slug", (p.get? "slug").getD .null)]) then
    (coll, nextId)
  else
    (coll ++ [("_id", .oid nextId) :: p], nextId + 1)

/-- The seeding loop of `list_products`: upsert each sample product in order. -/
def seedSamples (coll : List Doc) (nextId : Nat) : List Doc × Nat :=
  sample_products.foldl (fun acc p => upsertBySlug acc.1 acc.2 p) (coll, nextId)

/-- The storage branch of `list_products`, after the filter has been built:
query, serialize; on an empty result seed the samples and re-run the same
query; finally coerce every item through the `Product` model (`none` models a
request-aborting validation error).  Returns the response and the new store. -/
def list_products_db (st : Store) (fil : Doc) : Option (List Product) × Store :=
  let docs := get_documents st "product" fil
  let items := docs.map serialize
  if items.isEmpty then
    let seeded := seedSamples st.product st.nextId
    let st' := { st with product := seeded.1, nextId := seeded.2 }
    let items' := (get_documents st' "product" fil).map serialize
    (items'.mapM projectProduct, st')
  else
    (items.mapM projectProduct, st)

/-- `GET /products`: static fallback when the store is unconfigured
(`db is None`), otherwise the storage branch with the built filter. -/
def list_products (db : Option Store) (category : Option String) (featured : Option Bool) :
    Option (List Product) × Option Store :=
  match db with
  | none => (sample_products.mapM projectProduct, none)
  | some st =>
      let r := list_products_db st (buildFilter category featured)
      (r.1, some r.2)

/-- Failure modes of `GET /products/{slug}`: the 404 raised on a missing slug,
or a pydantic validation error while coercing a found document. -/
inductive GetErr where
  | notFound
  | validationError
deriving DecidableEq, Repr

/-- The check `p["slug"] == slug` (exact, case-sensitive). -/
def slugMatches (d : Doc) (slug : String) : Bool :=
  d.get? "slug" == some (.str slug)

/-- Outcome of coercing an optional found document through the model. -/
def coerceFound : Option Product → Except GetErr Product
  | some p => .ok p
  | none => .error .validationError

/-- `GET /products/{slug}`: scan the fallback list when the store is
unconfigured, otherwise `find_one({"slug": slug})` (modelled from the spec as
first match in insertion order) followed by `serialize` and model coercion. -/
def get_product (db : Option Store) (slug : String) : Except GetErr Product :=
  match db with
  | none =>
      match sample_products.find? (fun p => slugMatches p slug) with
      | some p => coerceFound (projectProduct p)
      | none => .error .notFound
  | some st =>
      match st.product.find? (fun d => matchesFilter d [("slug", .str slug)]) with
      | some doc => coerceFound (projectProduct (serialize doc))
      | none => .error .notFound

/-- The `Inquiry` pydantic model. -/
structure Inquiry where
  name : String
  email : String
  company : Option String := none
  phone : Option String := none
  message : String
  product_slug : Option String := none
deriving DecidableEq, Repr

/-- Pydantic validation of a request body against `Inquiry`: required string
fields must be present, optional ones default; extra keys (such as a
caller-supplied `created_at`) are ignored. -/
def parseInquiry (doc : Doc) : Option Inquiry :=
  match getStrV (doc.get? "name"), getStrV (doc.get? "email"),
        optStrV (doc.get? "company"), optStrV (doc.get? "phone"),
        getStrV (doc.get? "message"), optStrV (doc.get? "product_slug") with
  | some n, some e, some c, some p, some m, some ps => some ⟨n, e, c, p, m, ps⟩
  | _, _, _, _, _, _ => none

/-- `inquiry.model_dump()`: the model's fields in declaration order. -/
def inquiryToDoc (i : Inquiry) : Doc :=
  [("name", .str i.name), ("email", .str i.email),
   ("company", match i.company with | some s => .str s | none => .null),
   ("phone", match i.phone with | some s => .str s | none => .null),
   ("message", .str i.message),
   ("product_slug", match i.product_slug with | some s => .str s | none => .null)]

/-- The `InquiryResponse` model: a status marker and a response timestamp. -/
structure InquiryResponse where
  status : String
  received_at : Nat
deriving DecidableEq, Repr

/-- Observable outcome of a submit request: the response, the store afterwards,
and whether a persistence call was attempted at all. -/
structure SubmitResult where
  resp : InquiryResponse
  db : Option Store
  persistAttempted : Bool
deriving DecidableEq, Repr

/-- `submit_inquiry`: dump the payload; when the store is configured, attach the
server-side `created_at` capture timestamp and attempt to persist, swallowing a
persistence failure (`persistRaises` models `create_document` raising); always
answer `status="received"` with the response timestamp. -/
def submit_inquiry (db : Option Store) (persistRaises : Bool) (inquiry : Inquiry)
    (captureTime respTime : Nat) : SubmitResult :=
  let payload := inquiryToDoc inquiry
  match db with
  | none => { resp := { status := "received", received_at := respTime }, db := none,
              persistAttempted := false }
  | some st =>
      let payload' := payload.set "created_at" (.time captureTime)
      let st' := if persistRaises then st else create_document st "inquiry" payload'
      { resp := { status := "received", received_at := respTime }, db := some st',
        persistAttempted := true }

/-- The POST route table: the two decorators `@app.post("/contact")` and
`@app.post("/submit-inquiry")` both register the same handler. -/
def postRoutes : List (String × (Option Store → Bool → Inquiry → Nat → Nat → SubmitResult)) :=
  [("/contact", submit_inquiry), ("/submit-inquiry", submit_inquiry)]

/-- Dispatch of a POST request: route lookup, body validation against
`Inquiry` (inner `none` models the 422 validation failure), then the handler. -/
def handle_post (path : String) (body : Doc) (db : Option Store) (persistRaises : Bool)
    (captureTime respTime : Nat) : Option (Option SubmitResult) :=
  (postRoutes.find? (fun kv => kv.1 == path)).map
    (fun kv => (parseInquiry body).map
      (fun i => kv.2 db persistRaises i captureTime respTime))

/-- Python `\s` on ASCII input: space, tab, newline, carriage return,
vertical tab, form feed. -/
def isPySpace (c : Char) : Bool :=
  c = ' ' || c = '\t' || c = '\n' || c = '\r' || c = Char.ofNat 11 || c = Char.ofNat 12

/-- `text.strip()`: drop leading and trailing whitespace. -/
def stripWs (l : List Char) : List Char :=
  ((l.dropWhile isPySpace).reverse.dropWhile isPySpace).reverse

/-- A character kept by `re.sub(r"[^a-z0-9\s-]", "", ...)`. -/
def keepCh (c : Char) : Bool :=
  ('a' ≤ c && c ≤ 'z') || ('0' ≤ c && c ≤ '9') || isPySpace c || c = '-'

/-- A character of the class `[\s-]` collapsed by the second substitution. -/
def isSepChar (c : Char) : Bool :=
  isPySpace c || c = '-'

/-- `re.sub(r"[\s-]+", "-", ...)`: replace each maximal run of separator
characters by a single hyphen.  The flag records being inside such a run. -/
def collapseSeps : Bool → List Char → List Char
  | _, [] => []
  | inSep, c :: rest =>
      if isSepChar c then
        if inSep then collapseSeps true rest
        else '-' :: collapseSeps true rest
      else
        c :: collapseSeps false rest

/-- `slugify` from `main.py`: lowercase and strip, remove characters outside
`[a-z0-9\s-]`, then collapse separator runs into single hyphens. -/
def slugify (s : String) : String :=
  ⟨collapseSeps false ((stripWs (s.data.map Char.toLower)).filter keepCh)⟩

example : slugify "  Heavy--Duty  PLC Unit! " = "heavy-duty-plc-unit" := by decide

/-! ### Helper lemmas on documents -/

theorem Doc.get?_nil (k : String) : Doc.get? [] k = none := rfl

theorem Doc.get?_cons (k' : String) (v : Value) (d : Doc) (k : String) :
    Doc.get? ((k', v) :: d) k = if k' == k then some v else d.get? k := by
  by_cases h : k' == k <;> simp [Doc.get?, List.find?, h]

theorem Doc.get?_cons_ne {k' k : String} (v : Value) (d : Doc) (h : k' ≠ k) :
    Doc.get? ((k', v) :: d) k = d.get? k := by
  simp [Doc.get?_cons, h]

theorem Doc.get?_set_self (d : Doc) (k : String) (v : Value) :
    (d.set k v).get? k = some v := by
  induction d with
  | nil => simp [Doc.set, Doc.get?_cons]
  | cons kv rest ih =>
      obtain ⟨k', v'⟩ := kv
      by_cases h : k' == k
      · simp [Doc.set, h, Doc.get?_cons]
      · simp [Doc.set, h, Doc.get?_cons, ih]

theorem Doc.get?_set_ne {k' k : String} (d : Doc) (v : Value) (h : k' ≠ k) :
    (d.set k' v).get? k = d.get? k := by
  induction d with
  | nil => simp [Doc.set, Doc.get?_cons, h, Doc.get?_nil]
  | cons kv rest ih =>
      obtain ⟨k₀, v₀⟩ := kv
      by_cases h₀ : k₀ == k'
      · have hk : k₀ = k' := by simpa using h₀
        subst hk
        simp [Doc.set, Doc.get?_cons, h]
      · simp only [Doc.set, h₀, if_neg]
        simp [Doc.get?_cons, ih]

theorem Doc.get?_filter_of_none {d : Doc} {k : String} (p : String × Value → Bool)
    (h : d.get? k = none) : Doc.get? (d.filter p) k = none := by
  induction d with
  | nil => rfl
  | cons kv rest ih =>
      obtain ⟨k₀, v₀⟩ := kv
      by_cases hk : k₀ == k
      · simp [Doc.get?_cons, hk] at h
      · rw [Doc.get?_cons _ _ _ _, if_neg (by simp_all)] at h
        by_cases hp : p (k₀, v₀) <;>
          simp [List.filter, hp, Doc.get?_cons, hk, ih h]

theorem Doc.get?_erase_self (d : Doc) (k : String) :
    (d.erase k).get? k = none := by
  induction d with
  | nil => rfl
  | cons kv rest ih =>
      obtain ⟨k₀, v₀⟩ := kv
      by_cases hk : k₀ == k
      · simpa [Doc.erase, List.filter, hk] using ih
      · simpa [Doc.erase, List.filter, hk, Doc.get?_cons] using ih

theorem matchesFilter_singleton (d : Doc) (k : String) (v : Value) :
    matchesFilter d [(k, v)] = (d.get? k == some v) := by
  simp [matchesFilter]

theorem keepFields_keepFields (d : Doc) : keepFields (keepFields d) = keepFields d := by
  simp [keepFields, List.filter_filter]

/-! ### Claim theorems -/

/-- C1: while storage is unavailable (`db is None`), the list operation returns
the full static fallback list of three sample products for every combination of
the optional `category` and `featured` parameters; the right-hand side does not
depend on either parameter, so the filters are not applied in fallback mode. -/
theorem c1_fallback_ignores_filters (category : Option String) (featured : Option Bool) :
    list_products none category featured = (some [product1, product2, product3], none) := by
  rfl

/-- C4: for every inquiry, every storage state and regardless of whether the
persistence call raises, the submit operation answers with the fixed status
marker `"received"` and the response timestamp; a persistence failure is never
surfaced. -/
theorem c4_submit_always_received (db : Option Store) (persistRaises : Bool)
    (inquiry : Inquiry) (captureTime respTime : Nat) :
    (submit_inquiry db persistRaises inquiry captureTime respTime).resp =
      { status := "received", received_at := respTime } := by
  cases db <;> rfl

/-- C5: the entry points `POST /contact` and `POST /submit-inquiry` are
behaviorally identical: for every request body, storage state, persistence
outcome and timestamps, dispatching to either path performs the same
validation and produces the same result. -/
theorem c5_contact_and_submit_inquiry_identical (body : Doc) (db : Option Store)
    (persistRaises : Bool) (captureTime respTime : Nat) :
    handle_post "/contact" body db persistRaises captureTime respTime =
      handle_post "/submit-inquiry" body db persistRaises captureTime respTime := by
  rfl

/-- C9: a caller-supplied `created_at` is discarded by the `Inquiry` shape
(validation ignores it and the dumped payload has no such key); when storage is
unavailable no persistence write is attempted; when storage is available the
persisted record carries the server-side capture timestamp as `created_at`. -/
theorem c9_created_at_is_server_side (body : Doc) (v : Value) (inquiry : Inquiry)
    (st : Store) (persistRaises : Bool) (captureTime respTime : Nat) :
    (parseInquiry (("created_at", v) :: body) = parseInquiry body)
    ∧ ((inquiryToDoc inquiry).get? "created_at" = none)
    ∧ ((submit_inquiry none persistRaises inquiry captureTime respTime).db = none
        ∧ (submit_inquiry none persistRaises inquiry captureTime respTime).persistAttempted
            = false)
    ∧ ((submit_inquiry (some st) false inquiry captureTime respTime).db =
        some { st with
          inquiry := st.inquiry ++ [("_id", .oid st.nextId) ::
            (inquiryToDoc inquiry).set "created_at" (.time captureTime)],
          nextId := st.nextId + 1 }
        ∧ Doc.get? (("_id", Value.oid st.nextId) ::
            (inquiryToDoc inquiry).set "created_at" (.time captureTime)) "created_at"
          = some (.time captureTime)) := by
  refine ⟨?_, ?_, ⟨rfl, rfl⟩, ?_, ?_⟩
  · simp [parseInquiry, Doc.get?_cons]
  · simp [inquiryToDoc, Doc.get?_cons, Doc.get?_nil]
  · rfl
  · rw [Doc.get?_cons_ne _ _ (by decide), Doc.get?_set_self]

/-- C10: in the storage branch of the list operation, an empty-string category
is treated as no category filter at all, a non-empty category is filtered on,
and `featured=false` is a genuine exact-match filter. -/
theorem c10_truthy_category_filter (st : Store) (featured : Option Bool) :
    (buildFilter (some "") featured = buildFilter none featured)
    ∧ (list_products (some st) (some "") featured = list_products (some st) none featured)
    ∧ (∀ c : String, c ≠ "" →
        buildFilter (some c) featured = ("category", Value.str c) :: buildFilter none featured)
    ∧ (buildFilter none (some false) = [("featured", Value.bool false)])
    ∧ (get_documents st "product" [("featured", Value.bool false)] =
        st.product.filter (fun d => d.get? "featured" == some (Value.bool false))) := by
  refine ⟨by simp [buildFilter], by simp [list_products, buildFilter], ?_, rfl, ?_⟩
  · intro c hc
    simp [buildFilter, hc]
  · refine List.filter_congr ?_
    intro d _
    exact matchesFilter_singleton d "featured" (Value.bool false)

/-- C10 witness: a concrete non-empty category is filtered on. -/
theorem c10_witness :
    buildFilter (some "Automation") none =
      ("category", Value.str "Automation") :: buildFilter none none :=
  (c10_truthy_category_filter emptyStore none).2.2.1 "Automation" (by decide)

/-- A store holding one product document that carries an internal `_id`. -/
def idStore : Store :=
  { product := [[("_id", .oid 7), ("title", .str "Panel Meter"),
                 ("slug", .str "panel-meter"), ("category", .str "Metering")]],
    inquiry := [], nextId := 8 }

/-- The stored document of `idStore`, coerced through the `Product` model. -/
def idStoreProduct : Product :=
  { title := "Panel Meter", slug := "panel-meter", category := "Metering" }

/-- C2 counterexample: with storage available and holding a document with an
internal `_id`, the list operation's response record does not contain an `id`
field — the final projection onto the `Product` shape drops the `id` produced
by `serialize`, so the claim fails on this input. -/
theorem c2_counterexample :
    list_products (some idStore) none none = (some [idStoreProduct], some idStore)
    ∧ (productToDoc idStoreProduct).get? "id" = none
    ∧ ((productToDoc idStoreProduct).map Prod.fst).contains "id" = false := by
  refine ⟨by decide, rfl, rfl⟩

/-- Rewriting `serialize` on a document that carries an `_id` field. -/
theorem serialize_of_id {d : Doc} {v : Value} (h : d.get? "_id" = some v) :
    serialize d = (d.erase "_id").set "id" (.str (valueToStr v)) := by
  cases d with
  | nil => simp [Doc.get?_nil] at h
  | cons kv rest => simp [serialize, h]

/-- C2 amended: each queried document is serialized with its internal `_id`
renamed to an `id` field holding its string rendering, but only in the
intermediate per-document serialization; the final response record is the
`Product` shape, whose rendered fields are exactly the model's fields and
include no `id`. -/
theorem c2_serialize_renames_id :
    (∀ (d : Doc) (v : Value), d.get? "_id" = some v →
      (serialize d).get? "id" = some (.str (valueToStr v))
      ∧ (serialize d).get? "_id" = none)
    ∧ (∀ p : Product, (productToDoc p).map Prod.fst = productFieldNames) := by
  constructor
  · intro d v h
    rw [serialize_of_id h]
    refine ⟨Doc.get?_set_self _ _ _, ?_⟩
    rw [Doc.get?_set_ne _ _ (by decide)]
    exact Doc.get?_erase_self d "_id"
  · intro p
    rfl

/-- C2 witness: the amended serialization behavior at a concrete document. -/
theorem c2_witness :
    (serialize [("_id", Value.oid 3)]).get? "id" = some (Value.str "3")
    ∧ (serialize [("_id", Value.oid 3)]).get? "_id" = none :=
  c2_serialize_renames_id.1 [("_id", Value.oid 3)] (Value.oid 3) rfl

/-- The source the get-by-slug operation scans: the product collection when
storage is configured, the static fallback list otherwise. -/
def sourceDocs : Option Store → List Doc
  | none => sample_products
  | some st => st.product

/-- The singleton slug filter of `find_one` is the slug equality check. -/
theorem matchesFilter_slug (slug : String) :
    (fun d => matchesFilter d [("slug", Value.str slug)]) =
      (fun d => slugMatches d slug) := by
  funext d
  simp [matchesFilter_singleton, slugMatches]

/-- C3: the get-by-slug operation fails with NotFound exactly when no document
with that exact slug exists in the relevant source; when a first match exists,
the result is that document projected onto the `Product` shape (the storage
path serializing it first). -/
theorem c3_get_by_slug (db : Option Store) (slug : String) :
    (get_product db slug = .error .notFound ↔
      ∀ d ∈ sourceDocs db, slugMatches d slug = false)
    ∧ (db = none → ∀ d, (sourceDocs db).find? (fun p => slugMatches p slug) = some d →
        get_product db slug = coerceFound (projectProduct d))
    ∧ (∀ st, db = some st →
        ∀ d, (sourceDocs db).find? (fun p => slugMatches p slug) = some d →
          get_product db slug = coerceFound (projectProduct (serialize d))) := by
  cases db with
  | none =>
      refine ⟨?_, ?_, ?_⟩
      · cases hf : sample_products.find? (fun p => slugMatches p slug) with
        | none =>
            simp only [get_product, hf, sourceDocs]
            constructor
            · intro _ d hd
              have := List.find?_eq_none.mp hf d hd
              simpa using this
            · intro _
              trivial
        | some p =>
            simp only [get_product, hf, sourceDocs]
            constructor
            · intro h
              cases hp : projectProduct p <;> simp [coerceFound, hp] at h
            · intro hall
              have hmatch := List.find?_some hf
              rw [hall p (List.mem_of_find?_eq_some hf)] at hmatch
              cases hmatch
      · intro _ d hf
        simp only [sourceDocs] at hf
        simp only [get_product, hf]
      · intro st h
        exact Option.noConfusion h
  | some st =>
      refine ⟨?_, ?_, ?_⟩
      · rw [show (get_product (some st) slug = Except.error GetErr.notFound) =
              ((match st.product.find? (fun d => slugMatches d slug) with
                | some doc => coerceFound (projectProduct (serialize doc))
                | none => (.error .notFound : Except GetErr Product)) =
                  .error .notFound) from by
              simp only [get_product, matchesFilter_slug]]
        cases hf : st.product.find? (fun d => slugMatches d slug) with
        | none =>
            simp only [hf]
            constructor
            · intro _ d hd
              have := List.find?_eq_none.mp hf d hd
              simpa using this
            · intro _
              trivial
        | some p =>
            simp only [hf]
            constructor
            · intro h
              cases hp : projectProduct (serialize p) <;> simp [coerceFound, hp] at h
            · intro hall
              have hmatch := List.find?_some hf
              rw [hall p (List.mem_of_find?_eq_some hf)] at hmatch
              cases hmatch
      · intro h
        exact Option.noConfusion h
      · intro st' h d hf
        cases h
        simp only [sourceDocs] at hf
        simp only [get_product, matchesFilter_slug, hf]

/-- C3 witness: an unknown slug yields NotFound on a configured empty store,
and a known slug in fallback mode yields the projected sample. -/
theorem c3_witness :
    get_product (some emptyStore) "does-not-exist" = Except.error GetErr.notFound
    ∧ get_product none "metallic-cable-tray-ladder" =
        coerceFound (projectProduct sampleDoc2) :=
  ⟨(c3_get_by_slug (some emptyStore) "does-not-exist").1.mpr (by simp [sourceDocs, emptyStore]),
   (c3_get_by_slug none "metallic-cable-tray-ladder").2.1 rfl sampleDoc2 (by decide)⟩

/-- A key absent from a document is also absent after the model-field filter. -/
theorem get?_keepFields_of_none {d : Doc} {k : String} (h : d.get? k = none) :
    Doc.get? (keepFields d) k = none :=
  Doc.get?_filter_of_none _ h

/-- C6: projecting a raw record onto the `Product` shape depends only on the
model's fields (extra keys are silently dropped), the rendered result carries
exactly the model's fields, and absent optional fields take their defaults
(`brand`, `description`, `specs`, `images` default to none, `featured` to
false). -/
theorem c6_projection_onto_product_shape :
    (∀ doc : Doc, projectProduct (keepFields doc) = projectProduct doc)
    ∧ (∀ p : Product, (productToDoc p).map Prod.fst = productFieldNames)
    ∧ (∀ (doc : Doc) (p : Product), projectProduct doc = some p →
        (doc.get? "brand" = none → p.brand = none)
        ∧ (doc.get? "description" = none → p.description = none)
        ∧ (doc.get? "specs" = none → p.specs = none)
        ∧ (doc.get? "images" = none → p.images = none)
        ∧ (doc.get? "featured" = none → p.featured = false)) := by
  refine ⟨?_, fun p => rfl, ?_⟩
  · intro doc
    simp only [projectProduct, keepFields_keepFields]
  · intro doc p h
    simp only [projectProduct] at h
    split at h
    case _ t sl c b de sp im f ht hsl hc hb hde hsp him hf =>
      cases h
      refine ⟨?_, ?_, ?_, ?_, ?_⟩
      · intro hn
        rw [get?_keepFields_of_none hn] at hb
        cases hb
        rfl
      · intro hn
        rw [get?_keepFields_of_none hn] at hde
        cases hde
        rfl
      · intro hn
        rw [get?_keepFields_of_none hn] at hsp
        cases hsp
        rfl
      · intro hn
        rw [get?_keepFields_of_none hn] at him
        cases him
        rfl
      · intro hn
        rw [get?_keepFields_of_none hn] at hf
        cases hf
        rfl
    case _ =>
      cases h

/-- C6 witness: a record with the required fields, one extra key and no
optional fields projects to the defaults. -/
theorem c6_witness :
    (Product.mk "Panel" "panel" "Metering" none none none none false).brand = none
    ∧ (Product.mk "Panel" "panel" "Metering" none none none none false).featured = false := by
  have h := c6_projection_onto_product_shape.2.2
    [("title", Value.str "Panel"), ("slug", Value.str "panel"),
     ("category", Value.str "Metering"), ("extra", Value.bool true)]
    (Product.mk "Panel" "panel" "Metering" none none none none false) (by decide)
  exact ⟨h.1 rfl, h.2.2.2.2 rfl⟩

/-- The product collection after the lazy seeding of an empty store. -/
def seededStore : Store :=
  { product := [("_id", Value.oid 0) :: sampleDoc1,
                ("_id", Value.oid 1) :: sampleDoc2,
                ("_id", Value.oid 2) :: sampleDoc3],
    inquiry := [], nextId := 3 }

/-- The store left by the storage branch of the list operation: seeded when the
filtered query came back empty, untouched otherwise. -/
theorem list_products_db_snd (st : Store) (fil : Doc) :
    (list_products_db st fil).2 =
      if ((get_documents st "product" fil).map serialize).isEmpty then
        { st with product := (seedSamples st.product st.nextId).1,
                  nextId := (seedSamples st.product st.nextId).2 }
      else st := by
  unfold list_products_db
  dsimp only
  split <;> rfl

/-- C7: seeding is idempotent: starting from an empty product collection,
running the list operation twice (under any filters) leaves the store seeded
with exactly one copy of each static fallback product, keyed by slug; the
second call changes nothing. -/
theorem c7_seeding_idempotent (cat1 cat2 : Option String) (feat1 feat2 : Option Bool) :
    ((list_products (some emptyStore) cat1 feat1).2 = some seededStore)
    ∧ ((list_products (list_products (some emptyStore) cat1 feat1).2 cat2 feat2).2 =
        (list_products (some emptyStore) cat1 feat1).2)
    ∧ (seededStore.product.countP
        (fun d => slugMatches d "industrial-circuit-breaker-3p-100a") = 1)
    ∧ (seededStore.product.countP
        (fun d => slugMatches d "metallic-cable-tray-ladder") = 1)
    ∧ (seededStore.product.countP
        (fun d => slugMatches d "programmable-logic-controller-plc") = 1)
    ∧ (seededStore.product.length = 3) := by
  have h1 : (list_products (some emptyStore) cat1 feat1).2 = some seededStore := rfl
  refine ⟨h1, ?_, by decide, by decide, by decide, rfl⟩
  rw [h1]
  simp only [list_products]
  rw [list_products_db_snd]
  split
  · decide
  · rfl

/-- A character admissible in a slug: lowercase ASCII letter, digit, hyphen. -/
def goodCh (c : Char) : Bool :=
  ('a' ≤ c && c ≤ 'z') || ('0' ≤ c && c ≤ '9') || c = '-'

/-- No two consecutive hyphens occur in the character list. -/
def noDoubleHyphen : List Char → Bool
  | [] => true
  | [_] => true
  | a :: b :: rest => !(a == '-' && b == '-') && noDoubleHyphen (b :: rest)

/-- The list is empty or does not start with a hyphen. -/
def headNotHyphen : List Char → Bool
  | [] => true
  | c :: _ => !(c == '-')

/-- Collapsing separator runs of a kept-character list emits only admissible
characters. -/
theorem collapseSeps_all_good (l : List Char) (b : Bool) (h : l.all keepCh = true) :
    (collapseSeps b l).all goodCh = true := by
  induction l generalizing b with
  | nil => cases b <;> rfl
  | cons c rest ih =>
      simp only [List.all_cons, Bool.and_eq_true] at h
      obtain ⟨hc, hrest⟩ := h
      by_cases hs : isSepChar c
      · cases b with
        | true => simpa [collapseSeps, hs] using ih true hrest
        | false =>
            simp only [collapseSeps, hs, if_true, Bool.false_eq_true, if_false,
              List.all_cons, Bool.and_eq_true]
            refine ⟨by decide, ?_⟩
            exact ih true hrest
      · have hg : goodCh c = true := by
          simp only [keepCh, Bool.or_eq_true, Bool.and_eq_true,
            decide_eq_true_eq] at hc
          simp only [isSepChar, Bool.or_eq_true, decide_eq_true_eq, not_or,
            Bool.not_eq_true] at hs
          simp only [goodCh, Bool.or_eq_true, Bool.and_eq_true, decide_eq_true_eq]
          rcases hc with ((h1 | h2) | h3) | h4
          · exact Or.inl (Or.inl h1)
          · exact Or.inl (Or.inr h2)
          · rw [hs.1] at h3
            cases h3
          · exact absurd h4 hs.2
        simp only [collapseSeps, hs, if_false, Bool.false_eq_true, ite_false,
          List.all_cons, Bool.and_eq_true]
        exact ⟨hg, ih false hrest⟩

/-- Collapsing separator runs never emits two consecutive hyphens; when the
collapse starts inside a run, the output does not start with a hyphen. -/
theorem collapseSeps_noDouble (l : List Char) (b : Bool) :
    noDoubleHyphen (collapseSeps b l) = true
    ∧ (b = true → headNotHyphen (collapseSeps b l) = true) := by
  induction l generalizing b with
  | nil => cases b <;> exact ⟨rfl, fun _ => rfl⟩
  | cons c rest ih =>
      by_cases hs : isSepChar c
      · cases b with
        | true =>
            have := ih true
            simpa [collapseSeps, hs] using this
        | false =>
            have h1 := (ih true).1
            have h2 := (ih true).2 rfl
            simp only [collapseSeps, hs, if_true, Bool.false_eq_true, if_false]
            refine ⟨?_, fun hb => by cases hb⟩
            cases hout : collapseSeps true rest with
            | nil => rfl
            | cons d ds =>
                rw [hout] at h1 h2
                simp only [headNotHyphen, Bool.not_eq_true'] at h2
                simp only [noDoubleHyphen, h2, Bool.and_false, Bool.not_false,
                  Bool.true_and]
                exact h1
      · have hcne : (c == '-') = false := by
          simp only [isSepChar, Bool.or_eq_true, decide_eq_true_eq, not_or] at hs
          simpa using hs.2
        have h1 := (ih false).1
        simp only [collapseSeps, hs, if_false, Bool.false_eq_true, ite_false]
        refine ⟨?_, fun _ => by simp [headNotHyphen, hcne]⟩
        cases hout : collapseSeps false rest with
        | nil => rfl
        | cons d ds =>
            rw [hout] at h1
            simp only [noDoubleHyphen, hcne, Bool.false_and, Bool.not_false,
              Bool.true_and]
            exact h1

/-- C8: for every input string, `slugify` (lowercase and strip, drop characters
outside `[a-z0-9\s-]`, collapse separator runs into single hyphens) produces a
string containing only lowercase ASCII letters, digits and hyphens, with no two
consecutive hyphens. -/
theorem c8_slugify_shape (s : String) :
    (slugify s).data.all goodCh = true
    ∧ noDoubleHyphen (slugify s).data = true := by
  have hall : ((stripWs (s.data.map Char.toLower)).filter keepCh).all keepCh = true := by
    simp only [List.all_eq_true, List.mem_filter]
    exact fun x hx => hx.2
  exact ⟨collapseSeps_all_good _ false hall, (collapseSeps_noDouble _ false).1⟩

end IndustrialApi
